import Mathlib

/-!
Verification of the `persidate` Jalali/Gregorian conversion library.

The definitions below are a shallow embedding of `src/src/index.ts`.
JavaScript numeric operators on the (integer-valued) numbers occurring in
the code are modelled exactly:
* `Math.floor(a / b)` with `b > 0` is `Int.fdiv a b` (floor division);
* the JS remainder operator `%` truncates toward zero, which is `Int.tmod`.
-/

namespace Persidate

/-- Gregorian leap-year predicate as written inline in `toGregorian`
(line 504) and in `isLeapYearJalali` (line 434):
`(gy % 4 === 0 && gy % 100 !== 0) || gy % 400 === 0`. -/
def gregLeapB (gy : Int) : Bool :=
  (Int.tmod gy 4 == 0 && Int.tmod gy 100 != 0) || Int.tmod gy 400 == 0

/-- Anchor base year selection, `toGregorian` line 474:
`let gy = jy <= 979 ? 621 : 1600`. -/
def anchorBase (jy : Int) : Int :=
  if jy ≤ 979 then 621 else 1600

/-- Anchor year adjustment, `toGregorian` line 475:
`jy -= jy <= 979 ? 0 : 979`. -/
def anchorYear (jy : Int) : Int :=
  if jy ≤ 979 then jy else jy - 979

/-- Day-count accumulation, `toGregorian` lines 477-483:
`days = 365*jy + floor(jy/33)*8 + floor(((jy%33)+3)/4) + 78 + jd
      + (jm < 7 ? (jm-1)*31 : (jm-7)*30 + 186)`,
applied to the anchor-adjusted year. -/
def jalaliDays (jy jm jd : Int) : Int :=
  let jy1 := anchorYear jy
  365 * jy1 + Int.fdiv jy1 33 * 8 + Int.fdiv (Int.tmod jy1 33 + 3) 4 + 78 + jd +
    (if jm < 7 then (jm - 1) * 31 else (jm - 7) * 30 + 186)

/-- Gregorian-cycle reduction, `toGregorian` lines 485-498.  The source
mutates `gy` and `days`; here each mutation step is a named value.
Line 485: `gy` gains `400 * Math.floor(days / 146097)` and `days` becomes
`days % 146097`.  Lines 488-492, only when `days > 36524`: `gy` gains
`100 * Math.floor(--days / 36524)` -- the `--days` pre-decrement means the
division and the following `days %= 36524` both act on `days - 1` -- and
then `days` is re-incremented when `days >= 365`.  Lines 494-495: `gy`
gains `4 * Math.floor(days / 1461)` and `days` becomes `days % 1461`.
Line 497, unconditionally: `gy` gains `Math.floor((days - 1) / 365)`;
line 498, only when `days > 365`: `days` becomes `(days - 1) % 365`. -/
def cycleReduce (gy days : Int) : Int × Int :=
  let gy1 := gy + 400 * Int.fdiv days 146097
  let d1 := Int.tmod days 146097
  let gy2 := if d1 > 36524 then gy1 + 100 * Int.fdiv (d1 - 1) 36524 else gy1
  let d2 := if d1 > 36524 then
      (let r := Int.tmod (d1 - 1) 36524
       if r ≥ 365 then r + 1 else r)
    else d1
  let gy3 := gy2 + 4 * Int.fdiv d2 1461
  let d3 := Int.tmod d2 1461
  let gy4 := gy3 + Int.fdiv (d3 - 1) 365
  let d4 := if d3 > 365 then Int.tmod (d3 - 1) 365 else d3
  (gy4, d4)

/-- The month-length table `sal_a` built in `toGregorian` lines 501-515:
`[0, 31, leap ? 29 : 28, 31, 30, 31, 30, 31, 31, 30, 31, 30, 31]`. -/
def sal_a (gy : Int) : List Int :=
  [0, 31, if gregLeapB gy then 29 else 28, 31, 30, 31, 30, 31, 31, 30, 31, 30, 31]

/-- The month-decomposition loop of `toGregorian` lines 516-520:
`for (gm = 0; gm < 13; gm++)`, breaking when `gd <= sal_a[gm]` and
otherwise subtracting `sal_a[gm]` from `gd`.  Walking the 13-element
table structurally is the same iteration: the argument list is the
not-yet-visited suffix of `sal_a` and `gm` the index of its head; when
the list is exhausted the loop has ended with `gm = 13`. -/
def monthWalk : List Int → Int → Int → Int × Int
  | [], gm, gd => (gm, gd)
  | a :: rest, gm, gd => if gd ≤ a then (gm, gd) else monthWalk rest (gm + 1) (gd - a)

/-- `toGregorian` (src/src/index.ts lines 469-522), assembled from the
blocks above exactly in source order: anchor selection, day-count
accumulation, Gregorian-cycle reduction, `gd = days + 1`, month walk. -/
def toGregorian (jy jm jd : Int) : Int × Int × Int :=
  let p := cycleReduce (anchorBase jy) (jalaliDays jy jm jd)
  let q := monthWalk (sal_a p.1) 0 (p.2 + 1)
  (p.1, q.1, q.2)

/-- `isLeapYearJalali` (src/src/index.ts lines 432-435):
`const [gy] = toGregorian(jalaliYear, 1, 1);
 return (gy % 4 === 0 && gy % 100 !== 0) || gy % 400 === 0;`. -/
def isLeapYearJalali (jalaliYear : Int) : Bool :=
  let gy := (toGregorian jalaliYear 1 1).1
  (Int.tmod gy 4 == 0 && Int.tmod gy 100 != 0) || Int.tmod gy 400 == 0

/-! ### Gregorian calendar reference notions

Used to state validity and day-succession properties about `toGregorian`'s
output triples. -/

/-- Length of Gregorian month `m` (1-12) in year `gy`, February sized by the
leap predicate; `0` for out-of-range `m`. -/
def gregMonthLength (gy m : Int) : Int :=
  if m = 1 then 31
  else if m = 2 then (if gregLeapB gy then 29 else 28)
  else if m = 3 then 31
  else if m = 4 then 30
  else if m = 5 then 31
  else if m = 6 then 30
  else if m = 7 then 31
  else if m = 8 then 31
  else if m = 9 then 30
  else if m = 10 then 31
  else if m = 11 then 30
  else if m = 12 then 31
  else 0

/-- A `(gy, gm, gd)` triple is a valid Gregorian calendar date. -/
def validGregorianB (t : Int × Int × Int) : Bool :=
  decide (1 ≤ t.2.1) && decide (t.2.1 ≤ 12) && decide (1 ≤ t.2.2) &&
    decide (t.2.2 ≤ gregMonthLength t.1 t.2.1)

/-- The calendar day immediately after a Gregorian triple. -/
def nextGregorianDay (t : Int × Int × Int) : Int × Int × Int :=
  if t.2.2 < gregMonthLength t.1 t.2.1 then (t.1, t.2.1, t.2.2 + 1)
  else if t.2.1 < 12 then (t.1, t.2.1 + 1, 1)
  else (t.1 + 1, 1, 1)

/-! ### Bounds-checked model of the month loop (for the safety claim)

`for (gm = 0; gm < 13; gm++)` reads `sal_a[gm]` each iteration.  Here the
array read is modelled as an optional lookup (`none` standing for a read
past the end of the array, JS `undefined`), and the loop-iteration count
`13 - gm` is carried as explicit fuel, so that termination and
in-bounds access are a theorem rather than an assumption. -/

/-- The loop of `toGregorian` lines 516-520 with explicit array-bounds
checking: `fuel` is the number of remaining iterations allowed by the
loop condition `gm < 13`; when it reaches zero the loop exits with the
current `(gm, gd)` state. -/
def monthLoop (sal : List Int) : Nat → Int → Int → Option (Int × Int)
  | 0, gm, gd => some (gm, gd)
  | fuel + 1, gm, gd =>
    match sal[gm.toNat]? with
    | none => none
    | some a => if gd ≤ a then some (gm, gd) else monthLoop sal fuel (gm + 1) (gd - a)

/-- `toGregorian` with the month loop's array accesses bounds-checked:
returns `none` exactly when the loop would read past `sal_a`. -/
def toGregorianChecked (jy jm jd : Int) : Option (Int × Int × Int) :=
  let p := cycleReduce (anchorBase jy) (jalaliDays jy jm jd)
  match monthLoop (sal_a p.1) 13 0 (p.2 + 1) with
  | none => none
  | some q => some (p.1, q.1, q.2)

/-! ### The specification's day-count formula (for the refinement claims)

The following definitions follow the wording of spec sections 4.1 step 1-3,
not the source; they exist to be compared with the definitions above.
`floor` is floor division and `%` the source language's remainder. -/

/-- Spec 4.1 step 1, anchor base: "if `jy <= 979`, Gregorian base year =
621 ... otherwise base year = 1600". -/
def specAnchorBase (jy : Int) : Int :=
  if jy ≤ 979 then 621 else 1600

/-- Spec 4.1 step 1, anchor year: "`jy` unchanged ... otherwise `jy -= 979`". -/
def specAnchorYear (jy : Int) : Int :=
  if jy ≤ 979 then jy else jy - 979

/-- Spec 4.1 step 2: "`days = 365*jy + floor(jy/33)*8 + floor(((jy%33)+3)/4)
+ 78 + jd + monthOffset`, where `monthOffset = (jm-1)*31` if `jm < 7` ...
else `(jm-7)*30 + 186`", applied to the anchor-adjusted year. -/
def specDayCountFormula (jy jm jd : Int) : Int :=
  let y := specAnchorYear jy
  let monthOffset := if jm < 7 then (jm - 1) * 31 else (jm - 7) * 30 + 186
  365 * y + Int.fdiv y 33 * 8 + Int.fdiv (Int.tmod y 33 + 3) 4 + 78 + jd + monthOffset

/-- Spec 4.1 step 3 read literally: nested modular reduction "in priority
order: the 400-year cycle (146097 days exactly), then a 100-year cycle
(36524 days, with an off-by-one correction: if the remainder after this
step exceeds 365, increment it ...), then the 4-year cycle (1461 days)",
then by 365, "each cycle division contributes cycle_length_years * quotient
to the accumulating Gregorian year, and the remainder carries into the
next, finer-grained cycle". -/
def specCycleDecomposition (gy days : Int) : Int × Int :=
  let q400 := Int.fdiv days 146097
  let r400 := Int.tmod days 146097
  let q100 := Int.fdiv r400 36524
  let r100a := Int.tmod r400 36524
  let r100 := if r100a > 365 then r100a + 1 else r100a
  let q4 := Int.fdiv r100 1461
  let r4 := Int.tmod r100 1461
  let q1 := Int.fdiv r4 365
  let r1 := Int.tmod r4 365
  (gy + 400 * q400 + 100 * q100 + 4 * q4 + q1, r1)

/-- The cycle reduction the code actually performs, written as a staged
decomposition (the amended form of spec 4.1 step 3): the 100-year stage
runs only when the 400-cycle remainder strictly exceeds 36524, divides the
remainder *minus one* by 36524, and re-increments its remainder when that
is at least 365; the final stage always adds `floor((r - 1)/365)` to the
year but reduces `r` to `(r - 1) % 365` only when `r` strictly exceeds 365. -/
def amendedCycleDecomposition (gy days : Int) : Int × Int :=
  let q400 := Int.fdiv days 146097
  let r400 := Int.tmod days 146097
  let q100 := if r400 > 36524 then Int.fdiv (r400 - 1) 36524 else 0
  let r100 := if r400 > 36524 then
      (let r := Int.tmod (r400 - 1) 36524
       if r ≥ 365 then r + 1 else r)
    else r400
  let q4 := Int.fdiv r100 1461
  let r4 := Int.tmod r100 1461
  let q1 := Int.fdiv (r4 - 1) 365
  let r1 := if r4 > 365 then Int.tmod (r4 - 1) 365 else r4
  (gy + 400 * q400 + 100 * q100 + 4 * q4 + q1, r1)

/-! ### Formatting layer (`formatToLocalizedDate`, lines 193-251)

The host-collaborator computations (locale formatting, digit
normalization, ISO conversion) are modelled as an input record holding the
strings they produce for the given, valid input date; the embedded
function is the dispatch on the format token, which is what the source
itself contributes. -/

/-- The strings the host collaborators derive from one valid input date:
the six Jalali renderings produced through `convertToJalaliDate` /
`formatToJalaliDatePadded` and the `convertToISODateTime` output split at
`T`, with the clock part further split at `:`. -/
structure HostDateView where
  jalaliDefault : String
  jalaliPadded : String
  jalaliMonthName : String
  jalaliDayNum : String
  jalaliDayMonth : String
  jalaliDayMonthYear : String
  isoDate : String
  clock0 : String
  clock1 : String
  clock2 : String

/-- `formatToLocalizedDate` (lines 193-251): dispatch on the format token,
returning `none` (= JS `null`) for unrecognized tokens. -/
def formatToLocalizedDate (d : HostDateView) (format : String) : Option String :=
  if format = "jYYYY-jM-jD" then some d.jalaliDefault
  else if format = "jYYYY-jMM-jDD" then some d.jalaliPadded
  else if format = "jMMMM" then some d.jalaliMonthName
  else if format = "jD" then some d.jalaliDayNum
  else if format = "jDDD" then some d.jalaliDayMonth
  else if format = "jDDD-jMM-jYY" then some d.jalaliDayMonthYear
  else if format = "YYYY-MM-DD" then some d.isoDate
  else if format = "YYYY/MM/DD" then some (d.isoDate.replace "-" "/")
  else if format = "YYYY/MM/DD HH:mm" then
    some (d.isoDate.replace "-" "/" ++ " " ++ d.clock0 ++ ":" ++ d.clock1)
  else if format = "HH:mm" then some (d.clock0 ++ ":" ++ d.clock1)
  else if format = "YYYY/MM/DDTHH:mm:ss" then
    some (d.isoDate.replace "-" "/" ++ "T" ++ d.clock0 ++ ":" ++ d.clock1 ++ ":" ++ d.clock2)
  else none

/-- The format tokens enumerated in spec section 6. -/
def knownFormats : List String :=
  ["jYYYY-jM-jD", "jYYYY-jMM-jDD", "jMMMM", "jD", "jDDD", "jDDD-jMM-jYY",
   "YYYY-MM-DD", "YYYY/MM/DD", "YYYY/MM/DD HH:mm", "HH:mm", "YYYY/MM/DDTHH:mm:ss"]

/-! ### `getDaysFromNow` (lines 339-352)

The host's date parsing is modelled by the argument: `none` for an input
whose parse is invalid (`isNaN(targetDate.getTime())`), `some t` for a
parse with epoch-millisecond value `t`.  `Math.ceil(a / b)` on integers is
`-(Int.fdiv (-a) b)`. -/

/-- `Math.ceil(a / b)` for integer `a` and positive integer `b`. -/
def jsCeilDiv (a b : Int) : Int := -(Int.fdiv (-a) b)

/-- `getDaysFromNow`: throws on an invalid parse, otherwise the ceiling of
the millisecond difference divided by `1000 * 60 * 60 * 24`. -/
def getDaysFromNow (target : Option Int) (now : Int) : Except String Int :=
  match target with
  | none => Except.error "Invalid date format. Use ISO format or Date object."
  | some t => Except.ok (jsCeilDiv (t - now) (1000 * 60 * 60 * 24))

/-! ### Helper lemmas -/

/-- For nonnegative arguments the source language's truncating remainder
agrees with Euclidean remainder. -/
theorem tmod_emod (a b : Int) (ha : 0 ≤ a) (hb : 0 ≤ b) : Int.tmod a b = a % b :=
  Int.tmod_eq_emod ha hb

/-- Sufficient arithmetic conditions for the leap flag of a nonnegative year. -/
theorem gregLeapB_true (g : Int) (hg : 0 ≤ g)
    (hc : (g % 4 = 0 ∧ g % 100 ≠ 0) ∨ g % 400 = 0) : gregLeapB g = true := by
  unfold gregLeapB
  rw [tmod_emod g 4 hg (by norm_num), tmod_emod g 100 hg (by norm_num),
    tmod_emod g 400 hg (by norm_num)]
  simp only [Bool.or_eq_true, Bool.and_eq_true, beq_iff_eq, bne_iff_ne]
  exact hc

/-- With the modern anchor base 1600, the reduction's final day counter is
in `[0, 365]`, and it reaches 365 (day-of-year 366) only in years whose
leap flag is set: base 1600 is divisible by 400, every 4-year quotient
adds a multiple of 4, the 100-year stage's re-increment step keeps day 365
out of the first (non-leap) year of a century, and a century year is hit
with remainder 365 only when all finer quotients vanish. -/
theorem cycleReduce_dayOfYear (days : Int) (h : 0 ≤ days) :
    0 ≤ (cycleReduce 1600 days).2 ∧ (cycleReduce 1600 days).2 ≤ 365 ∧
      ((cycleReduce 1600 days).2 = 365 → gregLeapB (cycleReduce 1600 days).1 = true) := by
  have e1 : Int.fdiv days 146097 = days / 146097 := Int.fdiv_eq_ediv _ (by norm_num)
  have e2 : Int.tmod days 146097 = days % 146097 := Int.tmod_eq_emod h (by norm_num)
  simp only [cycleReduce, e1, e2]
  set a := days / 146097 with ha
  set d1 := days % 146097 with hd1
  have ha0 : 0 ≤ a := Int.ediv_nonneg h (by norm_num)
  have hd1n : 0 ≤ d1 := Int.emod_nonneg _ (by norm_num)
  have hd1u : d1 < 146097 := Int.emod_lt_of_pos _ (by norm_num)
  by_cases hc : d1 > 36524
  · simp only [if_pos hc]
    have e3 : Int.fdiv (d1 - 1) 36524 = (d1 - 1) / 36524 := Int.fdiv_eq_ediv _ (by norm_num)
    have e4 : Int.tmod (d1 - 1) 36524 = (d1 - 1) % 36524 :=
      Int.tmod_eq_emod (by omega) (by norm_num)
    simp only [e3, e4]
    set b := (d1 - 1) / 36524 with hb
    set r := (d1 - 1) % 36524 with hr
    have hb0 : 0 ≤ b := Int.ediv_nonneg (by omega) (by norm_num)
    have hrn : 0 ≤ r := Int.emod_nonneg _ (by norm_num)
    have hru : r < 36524 := Int.emod_lt_of_pos _ (by norm_num)
    by_cases hbump : r ≥ 365
    · simp only [if_pos hbump]
      have e5 : Int.fdiv (r + 1) 1461 = (r + 1) / 1461 := Int.fdiv_eq_ediv _ (by norm_num)
      have e6 : Int.tmod (r + 1) 1461 = (r + 1) % 1461 :=
        Int.tmod_eq_emod (by omega) (by norm_num)
      simp only [e5, e6]
      set c := (r + 1) / 1461 with hcq
      set d3 := (r + 1) % 1461 with hd3
      have hc0 : 0 ≤ c := Int.ediv_nonneg (by omega) (by norm_num)
      have hd3n : 0 ≤ d3 := Int.emod_nonneg _ (by norm_num)
      have hd3u : d3 < 1461 := Int.emod_lt_of_pos _ (by norm_num)
      have e7 : Int.fdiv (d3 - 1) 365 = (d3 - 1) / 365 := Int.fdiv_eq_ediv _ (by norm_num)
      simp only [e7]
      by_cases h365 : d3 > 365
      · have e8 : Int.tmod (d3 - 1) 365 = (d3 - 1) % 365 :=
          Int.tmod_eq_emod (by omega) (by norm_num)
        simp only [if_pos h365, e8]
        refine ⟨by omega, by omega, fun hx => by omega⟩
      · simp only [if_neg h365]
        refine ⟨by omega, by omega, fun hx => ?_⟩
        apply gregLeapB_true _ (by omega)
        omega
    · simp only [if_neg hbump]
      have e5 : Int.fdiv r 1461 = r / 1461 := Int.fdiv_eq_ediv _ (by norm_num)
      have e6 : Int.tmod r 1461 = r % 1461 := Int.tmod_eq_emod (by omega) (by norm_num)
      simp only [e5, e6]
      set c := r / 1461 with hcq
      set d3 := r % 1461 with hd3
      have hc0 : 0 ≤ c := Int.ediv_nonneg (by omega) (by norm_num)
      have hd3n : 0 ≤ d3 := Int.emod_nonneg _ (by norm_num)
      have hd3u : d3 < 1461 := Int.emod_lt_of_pos _ (by norm_num)
      have e7 : Int.fdiv (d3 - 1) 365 = (d3 - 1) / 365 := Int.fdiv_eq_ediv _ (by norm_num)
      simp only [e7]
      by_cases h365 : d3 > 365
      · have e8 : Int.tmod (d3 - 1) 365 = (d3 - 1) % 365 :=
          Int.tmod_eq_emod (by omega) (by norm_num)
        simp only [if_pos h365, e8]
        refine ⟨by omega, by omega, fun hx => by omega⟩
      · simp only [if_neg h365]
        refine ⟨by omega, by omega, fun hx => ?_⟩
        apply gregLeapB_true _ (by omega)
        omega
  · simp only [if_neg hc]
    have e5 : Int.fdiv d1 1461 = d1 / 1461 := Int.fdiv_eq_ediv _ (by norm_num)
    have e6 : Int.tmod d1 1461 = d1 % 1461 := Int.tmod_eq_emod (by omega) (by norm_num)
    simp only [e5, e6]
    set c := d1 / 1461 with hcq
    set d3 := d1 % 1461 with hd3
    have hc0 : 0 ≤ c := Int.ediv_nonneg (by omega) (by norm_num)
    have hd3n : 0 ≤ d3 := Int.emod_nonneg _ (by norm_num)
    have hd3u : d3 < 1461 := Int.emod_lt_of_pos _ (by norm_num)
    have e7 : Int.fdiv (d3 - 1) 365 = (d3 - 1) / 365 := Int.fdiv_eq_ediv _ (by norm_num)
    simp only [e7]
    by_cases h365 : d3 > 365
    · have e8 : Int.tmod (d3 - 1) 365 = (d3 - 1) % 365 :=
        Int.tmod_eq_emod (by omega) (by norm_num)
      simp only [if_pos h365, e8]
      refine ⟨by omega, by omega, fun hx => by omega⟩
    · simp only [if_neg h365]
      refine ⟨by omega, by omega, fun hx => ?_⟩
      apply gregLeapB_true _ (by omega)
      omega


/-- A day-of-year in range walks to a valid month/day pair: the walk
breaks at some month 1-12 with the day within that month's length. -/
theorem monthWalk_valid (gy gd0 : Int) (h1 : 1 ≤ gd0)
    (h2 : gd0 ≤ if gregLeapB gy = true then 366 else 365) :
    validGregorianB (gy, (monthWalk (sal_a gy) 0 gd0).1,
      (monthWalk (sal_a gy) 0 gd0).2) = true := by
  cases hl : gregLeapB gy
  case false =>
    rw [if_neg (by simp [hl])] at h2
    simp only [sal_a, hl, Bool.false_eq_true, if_false]
    rw [monthWalk, if_neg (by omega : ¬gd0 ≤ 0)]
    by_cases c1 : gd0 - 0 ≤ 31
    · rw [monthWalk, if_pos c1]
      simp only [validGregorianB, gregMonthLength, hl, Bool.false_eq_true, if_false]
      norm_num
      omega
    rw [monthWalk, if_neg c1]
    by_cases c2 : gd0 - 0 - 31 ≤ 28
    · rw [monthWalk, if_pos c2]
      simp only [validGregorianB, gregMonthLength, hl, Bool.false_eq_true, if_false]
      norm_num
      omega
    rw [monthWalk, if_neg c2]
    by_cases c3 : gd0 - 0 - 31 - 28 ≤ 31
    · rw [monthWalk, if_pos c3]
      simp only [validGregorianB, gregMonthLength, hl, Bool.false_eq_true, if_false]
      norm_num
      omega
    rw [monthWalk, if_neg c3]
    by_cases c4 : gd0 - 0 - 31 - 28 - 31 ≤ 30
    · rw [monthWalk, if_pos c4]
      simp only [validGregorianB, gregMonthLength, hl, Bool.false_eq_true, if_false]
      norm_num
      omega
    rw [monthWalk, if_neg c4]
    by_cases c5 : gd0 - 0 - 31 - 28 - 31 - 30 ≤ 31
    · rw [monthWalk, if_pos c5]
      simp only [validGregorianB, gregMonthLength, hl, Bool.false_eq_true, if_false]
      norm_num
      omega
    rw [monthWalk, if_neg c5]
    by_cases c6 : gd0 - 0 - 31 - 28 - 31 - 30 - 31 ≤ 30
    · rw [monthWalk, if_pos c6]
      simp only [validGregorianB, gregMonthLength, hl, Bool.false_eq_true, if_false]
      norm_num
      omega
    rw [monthWalk, if_neg c6]
    by_cases c7 : gd0 - 0 - 31 - 28 - 31 - 30 - 31 - 30 ≤ 31
    · rw [monthWalk, if_pos c7]
      simp only [validGregorianB, gregMonthLength, hl, Bool.false_eq_true, if_false]
      norm_num
      omega
    rw [monthWalk, if_neg c7]
    by_cases c8 : gd0 - 0 - 31 - 28 - 31 - 30 - 31 - 30 - 31 ≤ 31
    · rw [monthWalk, if_pos c8]
      simp only [validGregorianB, gregMonthLength, hl, Bool.false_eq_true, if_false]
      norm_num
      omega
    rw [monthWalk, if_neg c8]
    by_cases c9 : gd0 - 0 - 31 - 28 - 31 - 30 - 31 - 30 - 31 - 31 ≤ 30
    · rw [monthWalk, if_pos c9]
      simp only [validGregorianB, gregMonthLength, hl, Bool.false_eq_true, if_false]
      norm_num
      omega
    rw [monthWalk, if_neg c9]
    by_cases c10 : gd0 - 0 - 31 - 28 - 31 - 30 - 31 - 30 - 31 - 31 - 30 ≤ 31
    · rw [monthWalk, if_pos c10]
      simp only [validGregorianB, gregMonthLength, hl, Bool.false_eq_true, if_false]
      norm_num
      omega
    rw [monthWalk, if_neg c10]
    by_cases c11 : gd0 - 0 - 31 - 28 - 31 - 30 - 31 - 30 - 31 - 31 - 30 - 31 ≤ 30
    · rw [monthWalk, if_pos c11]
      simp only [validGregorianB, gregMonthLength, hl, Bool.false_eq_true, if_false]
      norm_num
      omega
    rw [monthWalk, if_neg c11]
    rw [monthWalk, if_pos (by omega : gd0 - 0 - 31 - 28 - 31 - 30 - 31 - 30 - 31 - 31 - 30 - 31 - 30 ≤ 31)]
    simp only [validGregorianB, gregMonthLength, hl, Bool.false_eq_true, if_false]
    norm_num
    omega
  case true =>
    rw [if_pos hl] at h2
    simp only [sal_a, hl, if_true]
    rw [monthWalk, if_neg (by omega : ¬gd0 ≤ 0)]
    by_cases c1 : gd0 - 0 ≤ 31
    · rw [monthWalk, if_pos c1]
      simp only [validGregorianB, gregMonthLength, hl, if_true]
      norm_num
      omega
    rw [monthWalk, if_neg c1]
    by_cases c2 : gd0 - 0 - 31 ≤ 29
    · rw [monthWalk, if_pos c2]
      simp only [validGregorianB, gregMonthLength, hl, if_true]
      norm_num
      omega
    rw [monthWalk, if_neg c2]
    by_cases c3 : gd0 - 0 - 31 - 29 ≤ 31
    · rw [monthWalk, if_pos c3]
      simp only [validGregorianB, gregMonthLength, hl, if_true]
      norm_num
      omega
    rw [monthWalk, if_neg c3]
    by_cases c4 : gd0 - 0 - 31 - 29 - 31 ≤ 30
    · rw [monthWalk, if_pos c4]
      simp only [validGregorianB, gregMonthLength, hl, if_true]
      norm_num
      omega
    rw [monthWalk, if_neg c4]
    by_cases c5 : gd0 - 0 - 31 - 29 - 31 - 30 ≤ 31
    · rw [monthWalk, if_pos c5]
      simp only [validGregorianB, gregMonthLength, hl, if_true]
      norm_num
      omega
    rw [monthWalk, if_neg c5]
    by_cases c6 : gd0 - 0 - 31 - 29 - 31 - 30 - 31 ≤ 30
    · rw [monthWalk, if_pos c6]
      simp only [validGregorianB, gregMonthLength, hl, if_true]
      norm_num
      omega
    rw [monthWalk, if_neg c6]
    by_cases c7 : gd0 - 0 - 31 - 29 - 31 - 30 - 31 - 30 ≤ 31
    · rw [monthWalk, if_pos c7]
      simp only [validGregorianB, gregMonthLength, hl, if_true]
      norm_num
      omega
    rw [monthWalk, if_neg c7]
    by_cases c8 : gd0 - 0 - 31 - 29 - 31 - 30 - 31 - 30 - 31 ≤ 31
    · rw [monthWalk, if_pos c8]
      simp only [validGregorianB, gregMonthLength, hl, if_true]
      norm_num
      omega
    rw [monthWalk, if_neg c8]
    by_cases c9 : gd0 - 0 - 31 - 29 - 31 - 30 - 31 - 30 - 31 - 31 ≤ 30
    · rw [monthWalk, if_pos c9]
      simp only [validGregorianB, gregMonthLength, hl, if_true]
      norm_num
      omega
    rw [monthWalk, if_neg c9]
    by_cases c10 : gd0 - 0 - 31 - 29 - 31 - 30 - 31 - 30 - 31 - 31 - 30 ≤ 31
    · rw [monthWalk, if_pos c10]
      simp only [validGregorianB, gregMonthLength, hl, if_true]
      norm_num
      omega
    rw [monthWalk, if_neg c10]
    by_cases c11 : gd0 - 0 - 31 - 29 - 31 - 30 - 31 - 30 - 31 - 31 - 30 - 31 ≤ 30
    · rw [monthWalk, if_pos c11]
      simp only [validGregorianB, gregMonthLength, hl, if_true]
      norm_num
      omega
    rw [monthWalk, if_neg c11]
    rw [monthWalk, if_pos (by omega : gd0 - 0 - 31 - 29 - 31 - 30 - 31 - 30 - 31 - 31 - 30 - 31 - 30 ≤ 31)]
    simp only [validGregorianB, gregMonthLength, hl, if_true]
    norm_num
    omega

/-- For a modern-era year and in-range month and day, the accumulated
day-count is nonnegative. -/
theorem jalaliDays_nonneg (jy jm jd : Int) (hy : 980 ≤ jy) (hm1 : 1 ≤ jm)
    (hd1 : 1 ≤ jd) : 0 ≤ jalaliDays jy jm jd := by
  unfold jalaliDays anchorYear
  rw [if_neg (by omega : ¬jy ≤ 979)]
  dsimp only []
  have e1 : Int.fdiv (jy - 979) 33 = (jy - 979) / 33 := Int.fdiv_eq_ediv _ (by norm_num)
  have e2 : Int.tmod (jy - 979) 33 = (jy - 979) % 33 :=
    Int.tmod_eq_emod (by omega) (by norm_num)
  have e3 : Int.fdiv ((jy - 979) % 33 + 3) 4 = ((jy - 979) % 33 + 3) / 4 :=
    Int.fdiv_eq_ediv _ (by norm_num)
  rw [e1, e2, e3]
  split_ifs <;> omega

/-- The month-length table always has 13 entries. -/
theorem sal_a_length (gy : Int) : (sal_a gy).length = 13 := rfl

/-- The bounds-checked loop, run on the suffix of the table starting at
index `gm` with matching fuel, never reads out of bounds and computes the
same state as the structural walk of that suffix. -/
theorem monthLoop_append (suf : List Int) : ∀ (pre : List Int) (gd : Int),
    monthLoop (pre ++ suf) suf.length (pre.length : Int) gd =
      some (monthWalk suf (pre.length : Int) gd) := by
  induction suf with
  | nil => intro pre gd; rfl
  | cons a rest ih =>
    intro pre gd
    have hidx : (pre ++ a :: rest)[((pre.length : Int)).toNat]? = some a := by
      rw [Int.toNat_ofNat, List.getElem?_append_right (Nat.le_refl _)]
      simp
    simp only [List.length_cons, monthLoop, hidx]
    by_cases h : gd ≤ a
    · simp [monthWalk, h]
    · have := ih (pre ++ [a]) (gd - a)
      simp only [List.append_assoc, List.cons_append, List.nil_append,
        List.length_append, List.length_cons, List.length_nil] at this
      push_cast at this
      simp [monthWalk, h, this]


/-! ### Claim theorems -/

/-- Claim C1: for every integer Jalali triple, the anchor selection and the
day-count computed by `toGregorian` before the Gregorian-cycle reduction
equal the specification's formula (spec 4.1 steps 1-2), with `floor` read
as floor division and `%` as the source language's remainder. -/
theorem jalaliDays_matches_spec :
    ∀ jy jm jd : Int, anchorBase jy = specAnchorBase jy ∧
      anchorYear jy = specAnchorYear jy ∧
      jalaliDays jy jm jd = specDayCountFormula jy jm jd :=
  fun _ _ _ => ⟨rfl, rfl, rfl⟩

/-- Claim C2, counterexample: at the accumulated day-count 36524 -- reached
from the valid input `toGregorian 1078 10 11` -- the code's cycle reduction
yields Gregorian year 1699, while the specification's literal staged
decomposition (divide by 146097, then by 36524 with the bump, then by
1461, then by 365, each quotient contributing years) yields 1700. -/
theorem cycleReduce_differs_from_spec :
    jalaliDays 1078 10 11 = 36524 ∧
      (cycleReduce 1600 36524).1 = 1699 ∧ (specCycleDecomposition 1600 36524).1 = 1700 := by
  refine ⟨?_, ?_, ?_⟩ <;> decide

/-- Claim C2, amended: the code's reduction equals the staged decomposition
in which the 100-year stage runs only when the 400-cycle remainder strictly
exceeds 36524 and acts on the remainder minus one, its off-by-one bump
fires when the new remainder is at least 365, and the final stage always
adds `floor((r - 1)/365)` years but reduces the remainder only when it
strictly exceeds 365. -/
theorem cycleReduce_eq_amended :
    ∀ gy days : Int, cycleReduce gy days = amendedCycleDecomposition gy days := by
  intro gy days
  simp only [cycleReduce, amendedCycleDecomposition]
  split_ifs <;> refine Prod.ext (by ring) rfl

/-- Claim C3: `toGregorian 1403 8 16` is `(2024, 11, 6)`, and
`toGregorian 1404 1 1` falls in March 2025. -/
theorem toGregorian_fixed_points :
    toGregorian 1403 8 16 = (2024, 11, 6) ∧
      (toGregorian 1404 1 1).1 = 2025 ∧ (toGregorian 1404 1 1).2.1 = 3 := by
  refine ⟨?_, ?_, ?_⟩ <;> decide

/-- Claim C4, failing input: the consecutive Jalali days 1398/10/10 and
1398/10/11 map to 2019-12-31 and 2019-01-01 -- a jump 364 days backwards
instead of an advance by one calendar day.  (Day-count 153402 leaves the
4-year cycle with remainder 0, and the unguarded
`gy += Math.floor((days - 1) / 365)` then subtracts a year.) -/
theorem toGregorian_monotonicity_break :
    toGregorian 1398 10 10 = (2019, 12, 31) ∧ toGregorian 1398 10 11 = (2019, 1, 1) ∧
      toGregorian 1398 10 11 ≠ nextGregorianDay (toGregorian 1398 10 10) := by
  refine ⟨?_, ?_, ?_⟩ <;> decide

/-- Claim C5, counterexample: the library's own leap predicate reports
Jalali 979 as leap, so Esfand 979 has a 30th day, yet `toGregorian` sends
that day and the first day of year 980 to the same Gregorian date -- an
overlap at the anchor switch. -/
theorem anchor_switch_overlap :
    isLeapYearJalali 979 = true ∧ toGregorian 979 12 30 = toGregorian 980 1 1 := by
  refine ⟨?_, ?_⟩ <;> decide

/-- Claim C5, amended: taking the last day of Jalali year 979 as Esfand 29
(the conversion's own day-count arithmetic gives year 979 only 365 days),
the Gregorian date of 980/1/1 is exactly one calendar day after that of
979/12/29: 1601-03-20 is followed by 1601-03-21. -/
theorem anchor_switch_continuity :
    toGregorian 979 12 29 = (1601, 3, 20) ∧
      toGregorian 980 1 1 = nextGregorianDay (toGregorian 979 12 29) := by
  refine ⟨?_, ?_⟩ <;> decide

/-- Claim C6: `isLeapYearJalali Y` is true exactly when the Gregorian year
produced by `toGregorian Y 1 1` satisfies the Gregorian leap predicate,
and in particular Jalali 1403 is reported leap. -/
theorem isLeapYearJalali_iff :
    (∀ Y : Int, isLeapYearJalali Y = true ↔
      ((Int.tmod (toGregorian Y 1 1).1 4 = 0 ∧ Int.tmod (toGregorian Y 1 1).1 100 ≠ 0) ∨
        Int.tmod (toGregorian Y 1 1).1 400 = 0)) ∧ isLeapYearJalali 1403 = true := by
  constructor
  · intro Y
    simp [isLeapYearJalali]
  · decide

/-- Claim C7: on every integer triple -- out-of-range months and days
included -- the bounds-checked interpretation of `toGregorian` completes
without an out-of-bounds array read and returns exactly the value of the
total function `toGregorian`; being a function of its arguments, the
result is deterministic. -/
theorem toGregorianChecked_eq_some :
    ∀ jy jm jd : Int, toGregorianChecked jy jm jd = some (toGregorian jy jm jd) := by
  intro jy jm jd
  unfold toGregorianChecked toGregorian
  have h := monthLoop_append (sal_a (cycleReduce (anchorBase jy) (jalaliDays jy jm jd)).1)
    [] ((cycleReduce (anchorBase jy) (jalaliDays jy jm jd)).2 + 1)
  simp only [List.nil_append, List.length_nil, Nat.cast_zero, sal_a_length] at h
  dsimp only []
  rw [h]

/-- Claim C8: for a valid input date, `formatToLocalizedDate` returns a
string for each of the eleven enumerated format tokens and `none` for
every other format string. -/
theorem formatToLocalizedDate_known_formats :
    ∀ (d : HostDateView) (format : String),
      (format ∈ knownFormats → (formatToLocalizedDate d format).isSome = true) ∧
      (format ∉ knownFormats → formatToLocalizedDate d format = none) := by
  intro d format
  constructor
  · intro h
    fin_cases h <;> rfl
  · intro h
    simp only [knownFormats, List.mem_cons, List.not_mem_nil, or_false, not_or] at h
    obtain ⟨h1, h2, h3, h4, h5, h6, h7, h8, h9, h10, h11⟩ := h
    simp [formatToLocalizedDate, h1, h2, h3, h4, h5, h6, h7, h8, h9, h10, h11]

/-- Witness for claim C8 at a concrete date view, an enumerated token and
an unknown token. -/
theorem formatToLocalizedDate_known_formats_witness :
    (formatToLocalizedDate ⟨"a", "b", "c", "d", "e", "f", "g", "h", "i", "j"⟩
        "jMMMM").isSome = true ∧
      formatToLocalizedDate ⟨"a", "b", "c", "d", "e", "f", "g", "h", "i", "j"⟩
        "bogus" = none := by
  constructor
  · exact (formatToLocalizedDate_known_formats _ "jMMMM").1 (by decide)
  · exact (formatToLocalizedDate_known_formats _ "bogus").2 (by decide)

/-- Claim C9: `getDaysFromNow` raises its descriptive error exactly on an
invalid parse, and on a valid parse returns the ceiling of the
millisecond difference divided by 86400000, characterized by the two-sided
ceiling inequality. -/
theorem getDaysFromNow_spec :
    ∀ (target : Option Int) (now : Int),
      ((∃ e, getDaysFromNow target now = Except.error e) ↔ target = none) ∧
      getDaysFromNow none now =
        Except.error "Invalid date format. Use ISO format or Date object." ∧
      (∀ t, target = some t →
        ∃ r, getDaysFromNow target now = Except.ok r ∧
          1000 * 60 * 60 * 24 * (r - 1) < t - now ∧ t - now ≤ 1000 * 60 * 60 * 24 * r) := by
  intro target now
  refine ⟨?_, rfl, ?_⟩
  · cases target <;> simp [getDaysFromNow]
  · rintro t rfl
    refine ⟨jsCeilDiv (t - now) (1000 * 60 * 60 * 24), rfl, ?_, ?_⟩ <;>
      · unfold jsCeilDiv
        rw [Int.fdiv_eq_ediv _ (by norm_num)]
        omega

/-- Witness for claim C9: one day plus one millisecond ahead of `now`
rounds up to two days. -/
theorem getDaysFromNow_spec_witness :
    ∃ r, getDaysFromNow (some 86400001) 0 = Except.ok r ∧
      1000 * 60 * 60 * 24 * (r - 1) < 86400001 - 0 ∧
      86400001 - 0 ≤ 1000 * 60 * 60 * 24 * r :=
  (getDaysFromNow_spec (some 86400001) 0).2.2 86400001 rfl

/-- Claim C10, counterexample: the valid Jalali date 4/10/11 is sent to
month 13 -- the walk falls past December because day-of-year 366 lands in
Gregorian year 625, which is not leap. -/
theorem toGregorian_invalid_month_output :
    toGregorian 4 10 11 = (625, 13, 1) ∧ validGregorianB (toGregorian 4 10 11) = false := by
  refine ⟨?_, ?_⟩ <;> decide

/-- Claim C10, amended: for every Jalali input with `jy` at least 980 (the
1600 anchor), month 1-12 and day within the Jalali month length, the
triple returned by `toGregorian` is a valid Gregorian calendar date. -/
theorem toGregorian_valid_modern (jy jm jd : Int) (hy : 980 ≤ jy)
    (hm1 : 1 ≤ jm) (_hm2 : jm ≤ 12) (hd1 : 1 ≤ jd)
    (_hd2 : jd ≤ if jm < 7 then 31 else 30) :
    validGregorianB (toGregorian jy jm jd) = true := by
  unfold toGregorian
  dsimp only []
  have hbase : anchorBase jy = 1600 := by
    unfold anchorBase
    rw [if_neg (by omega : ¬jy ≤ 979)]
  rw [hbase]
  obtain ⟨hr1, hr2, hr3⟩ :=
    cycleReduce_dayOfYear (jalaliDays jy jm jd) (jalaliDays_nonneg jy jm jd hy hm1 hd1)
  apply monthWalk_valid
  · omega
  · by_cases hl : gregLeapB (cycleReduce 1600 (jalaliDays jy jm jd)).1 = true
    · rw [if_pos hl]
      omega
    · rw [if_neg hl]
      have : (cycleReduce 1600 (jalaliDays jy jm jd)).2 ≠ 365 := fun hx => hl (hr3 hx)
      omega

/-- Witness for the amended claim C10 at the last day of Jalali 1403. -/
theorem toGregorian_valid_modern_witness :
    validGregorianB (toGregorian 1403 12 30) = true :=
  toGregorian_valid_modern 1403 12 30 (by norm_num) (by norm_num) (by norm_num)
    (by norm_num) (by norm_num)

end Persidate
